import Mathlib

/-!
Verification of the error types of `src/util/exception.h` (namespace `lean`):
the base class `exception` (message-carrying error) and its subclass
`parser_exception` (message plus line/position).

Embedding conventions:
* C++ `std::string` and `char const *` message payloads are modelled as Lean
  `String` (the character content they carry).
* C++ `unsigned` is modelled as `Nat`; the code stores and returns these
  fields verbatim and performs no arithmetic on them, so no wraparound can
  occur.
* Each class becomes a structure; the subclass embeds the base as a field.
* Virtual dispatch through a base-class reference is modelled by a tagged sum
  (`std_exception_ref`) whose `what` dispatches on the dynamic tag, as the
  vtable does.
* The header declares the constructors, the destructors and `what`; their
  bodies live in `exception.cpp`, which is not part of this fragment, so those
  bodies are modelled from the spec (each such definition says so in its doc
  comment).  `get_line` and `get_pos` are defined inline in the header and are
  translated from that source.
-/

namespace LeanExc

/-- `class exception : public std::exception { protected: std::string m_msg; ... }`. -/
structure exception where
  m_msg : String
deriving DecidableEq, Repr

/-- Modelled from the spec: the body of `exception::exception(char const * msg)`
is in the missing `exception.cpp`; per the spec, construction from a text
literal stores the message. -/
def exception.mkCharPtr (msg : String) : exception := ⟨msg⟩

/-- Modelled from the spec: the body of `exception::exception(std::string const & msg)`
is in the missing `exception.cpp`; per the spec, construction from an owned
text value stores the message, behaving identically to the literal form. -/
def exception.mkString (msg : String) : exception := ⟨msg⟩

/-- Modelled from the spec: the body of `exception::exception(exception const & ex)`
is in the missing `exception.cpp`; per the spec, the copy constructor produces
an independent value with the same message. -/
def exception.copy (e : exception) : exception := ⟨e.m_msg⟩

/-- Modelled from the spec: the body of `exception::what()` is in the missing
`exception.cpp`; per the spec, `describe()` returns the message verbatim. -/
def exception.what (e : exception) : String := e.m_msg

/-- `class parser_exception : public exception { protected: unsigned m_line; unsigned m_pos; ... }`. -/
structure parser_exception where
  toException : exception
  m_line : Nat
  m_pos : Nat
deriving DecidableEq, Repr

/-- Modelled from the spec: the body of
`parser_exception::parser_exception(char const * msg, unsigned l, unsigned p)`
is in the missing `exception.cpp`; per the spec, the fields are stored as
supplied, with no validation or clamping. -/
def parser_exception.mkCharPtr (msg : String) (l p : Nat) : parser_exception :=
  ⟨exception.mkCharPtr msg, l, p⟩

/-- Modelled from the spec: the body of
`parser_exception::parser_exception(std::string const & msg, unsigned l, unsigned p)`
is in the missing `exception.cpp`; per the spec, it behaves identically to the
literal form: fields stored as supplied, no validation. -/
def parser_exception.mkString (msg : String) (l p : Nat) : parser_exception :=
  ⟨exception.mkString msg, l, p⟩

/-- Modelled from the spec: the body of
`parser_exception::parser_exception(parser_exception const & ex)` is in the
missing `exception.cpp`; per the spec, copy construction duplicates message,
line, and position independently. -/
def parser_exception.copy (e : parser_exception) : parser_exception :=
  ⟨⟨e.toException.m_msg⟩, e.m_line, e.m_pos⟩

/-- From the header: `unsigned get_line() const { return m_line; }`. -/
def parser_exception.get_line (e : parser_exception) : Nat := e.m_line

/-- From the header: `unsigned get_pos() const { return m_pos; }`. -/
def parser_exception.get_pos (e : parser_exception) : Nat := e.m_pos

/-- Modelled from the spec: the body of `parser_exception::what()` is in the
missing `exception.cpp`; per the spec, the rendered description embeds both
coordinates alongside the message. -/
def parser_exception.what (e : parser_exception) : String :=
  "(line: " ++ toString e.m_line ++ ", pos: " ++ toString e.m_pos ++ ") "
    ++ e.toException.m_msg

/-- A reference of static type `std::exception` (or `lean::exception`) whose
dynamic type is one of the two classes of this fragment.  Virtual dispatch on
`what()` selects the override of the dynamic type. -/
inductive std_exception_ref where
  | base : exception → std_exception_ref
  | parser : parser_exception → std_exception_ref
deriving DecidableEq, Repr

/-- Virtual dispatch: calling `what()` through a base-typed reference runs the
override of the dynamic type (`exception::what` or `parser_exception::what`). -/
def std_exception_ref.what : std_exception_ref → String
  | .base e => e.what
  | .parser e => e.what

/-- A generic handler written only against the base contract: it receives a
base-typed reference and reports the error by calling `what()` through it. -/
def generic_handler (r : std_exception_ref) : String := r.what

/-- The implicit upcast `lean::exception & → std::exception &`. -/
def exception.upcast (e : exception) : std_exception_ref := .base e

/-- The implicit upcast `lean::parser_exception & → std::exception &`
(through `lean::exception`). -/
def parser_exception.upcast (e : parser_exception) : std_exception_ref := .parser e

/-- One invocation of the `const noexcept` method `what()`: it yields the
rendered description and, being `const`, returns the object unchanged. -/
def exception.what_step (e : exception) : String × exception := (e.what, e)

/-- `n` successive invocations of `what()` on the same object, each call
observing the object left by the previous one; yields the list of results. -/
def exception.what_trace : exception → Nat → List String
  | _, 0 => []
  | e, n + 1 =>
    match e.what_step with
    | (s, e2) => s :: e2.what_trace n

/-- One invocation of `parser_exception::what()` (`const noexcept`). -/
def parser_exception.what_step (e : parser_exception) : String × parser_exception :=
  (e.what, e)

/-- `n` successive invocations of `parser_exception::what()` on the same
object; yields the list of results. -/
def parser_exception.what_trace : parser_exception → Nat → List String
  | _, 0 => []
  | e, n + 1 =>
    match e.what_step with
    | (s, e2) => s :: e2.what_trace n

/-- The public operations callable on an existing `parser_exception` object
(destruction aside, which only ends the life of the object). -/
inductive pexc_op where
  | op_what
  | op_get_line
  | op_get_pos
  | op_copy
deriving DecidableEq, Repr

/-- Running one public operation on a `parser_exception` object: the result of
the call, paired with the state of the object after the call. -/
def parser_exception.run_op (e : parser_exception) :
    pexc_op → (String ⊕ Nat ⊕ parser_exception) × parser_exception
  | .op_what => (Sum.inl e.what, e)
  | .op_get_line => (Sum.inr (Sum.inl e.get_line), e)
  | .op_get_pos => (Sum.inr (Sum.inl e.get_pos), e)
  | .op_copy => (Sum.inr (Sum.inr e.copy), e)

/-- The public operations callable on an existing base `exception` object. -/
inductive exc_op where
  | op_what
  | op_copy
deriving DecidableEq, Repr

/-- Running one public operation on a base `exception` object. -/
def exception.run_op (e : exception) : exc_op → (String ⊕ exception) × exception
  | .op_what => (Sum.inl e.what, e)
  | .op_copy => (Sum.inr e.copy, e)

end LeanExc

open LeanExc

/-- C1: for every constructed base `exception` with message `m` (from either
constructor form), `what()` returns the message verbatim. -/
theorem C1_base_what_verbatim (m : String) :
    (exception.mkCharPtr m).what = m ∧ (exception.mkString m).what = m :=
  ⟨rfl, rfl⟩

/-- C1 witness. -/
theorem C1_base_what_verbatim_witness :
    (exception.mkString "unexpected token").what = "unexpected token" :=
  (C1_base_what_verbatim "unexpected token").2

/-- C2: for every `parser_exception` constructed from `(m, l, p)` (either
constructor form), `get_line()` returns exactly `l` and `get_pos()` returns
exactly `p`; no validation or clamping is performed, and in particular the
construction from `("", 0, 0)` succeeds with both accessors returning `0`. -/
theorem C2_parser_accessors_exact :
    (∀ m l p, (parser_exception.mkCharPtr m l p).get_line = l
      ∧ (parser_exception.mkCharPtr m l p).get_pos = p
      ∧ (parser_exception.mkString m l p).get_line = l
      ∧ (parser_exception.mkString m l p).get_pos = p)
    ∧ (parser_exception.mkString "" 0 0).get_line = 0
    ∧ (parser_exception.mkString "" 0 0).get_pos = 0 :=
  ⟨fun _ _ _ => ⟨rfl, rfl, rfl, rfl⟩, rfl, rfl⟩

/-- C3: for every `parser_exception` constructed from `(m, l, p)`, the string
returned by `what()` contains the message `m`: the message content is not lost
in the rendering. -/
theorem C3_parser_what_contains_message (m : String) (l p : Nat) :
    (∃ a b : List Char,
      ((parser_exception.mkCharPtr m l p).what).data = a ++ m.data ++ b)
    ∧ ∃ a b : List Char,
      ((parser_exception.mkString m l p).what).data = a ++ m.data ++ b := by
  refine ⟨⟨("(line: " ++ toString l ++ ", pos: " ++ toString p ++ ") ").data, [], ?_⟩,
    ("(line: " ++ toString l ++ ", pos: " ++ toString p ++ ") ").data, [], ?_⟩ <;>
    simp [parser_exception.what, parser_exception.mkCharPtr, parser_exception.mkString,
      exception.mkCharPtr, exception.mkString, String.data_append]

/-- C3 witness. -/
theorem C3_parser_what_contains_message_witness :
    ∃ a b : List Char,
      ((parser_exception.mkString "unexpected token" 12 5).what).data
        = a ++ "unexpected token".data ++ b :=
  (C3_parser_what_contains_message "unexpected token" 12 5).2

/-- C4: for every `parser_exception` constructed from `(m, l, p)`, the rendered
description returned by `what()` embeds both coordinates `l` and `p` (in their
decimal rendering) alongside the message `m`. -/
theorem C4_parser_what_embeds_coordinates (m : String) (l p : Nat) :
    ∃ a b c d : List Char,
      ((parser_exception.mkString m l p).what).data
        = a ++ (toString l).data ++ b ++ (toString p).data ++ c ++ m.data ++ d := by
  refine ⟨"(line: ".data, ", pos: ".data, ") ".data, [], ?_⟩
  simp [parser_exception.what, parser_exception.mkString, exception.mkString,
    String.data_append]

/-- C4 witness. -/
theorem C4_parser_what_embeds_coordinates_witness :
    ∃ a b c d : List Char,
      ((parser_exception.mkString "unexpected token" 12 5).what).data
        = a ++ (toString 12).data ++ b ++ (toString 5).data ++ c
          ++ "unexpected token".data ++ d :=
  C4_parser_what_embeds_coordinates "unexpected token" 12 5

/-- C5: construction from a text literal (`char const *`) and from an owned
string (`std::string`) behave identically: equal `what()` results for the base
type, and equal `what()`, `get_line()`, `get_pos()` results for the located
type. -/
theorem C5_literal_and_string_ctors_agree (m : String) (l p : Nat) :
    (exception.mkCharPtr m).what = (exception.mkString m).what
    ∧ (parser_exception.mkCharPtr m l p).what = (parser_exception.mkString m l p).what
    ∧ (parser_exception.mkCharPtr m l p).get_line
        = (parser_exception.mkString m l p).get_line
    ∧ (parser_exception.mkCharPtr m l p).get_pos
        = (parser_exception.mkString m l p).get_pos :=
  ⟨rfl, rfl, rfl, rfl⟩

/-- C6: copy construction preserves all observable state: the copy of a base
`exception` reports the same `what()`, and the copy of a `parser_exception`
reports the same `what()`, `get_line()` and `get_pos()`; the copy is a fresh
value built only from the fields of the original, so it is independent of the
life of the original. -/
theorem C6_copy_preserves_observables (e : exception) (q : parser_exception) :
    e.copy.what = e.what
    ∧ q.copy.what = q.what
    ∧ q.copy.get_line = q.get_line
    ∧ q.copy.get_pos = q.get_pos :=
  ⟨rfl, rfl, rfl, rfl⟩

/-- C7: `what()` is stable and effect-free: invoked any number of times in
succession on the same object (each call, being `const`, leaving the object
unchanged), every call returns the same value — the trace of `n` calls is `n`
copies of the single rendered description, for the base and the located type.
-/
theorem C7_what_stable (e : exception) (q : parser_exception) (n : Nat) :
    e.what_trace n = List.replicate n e.what
    ∧ q.what_trace n = List.replicate n q.what := by
  constructor
  · induction n with
    | zero => rfl
    | succ k ih =>
      simp [exception.what_trace, exception.what_step, List.replicate_succ, ih]
  · induction n with
    | zero => rfl
    | succ k ih =>
      simp [parser_exception.what_trace, parser_exception.what_step,
        List.replicate_succ, ih]

/-- C8: substitutability: a handler written against the base contract, invoking
`what()` through a base-typed reference, observes the `parser_exception`
override of `what()` when the dynamic type is `parser_exception`, without
knowing the concrete kind. -/
theorem C8_substitutability (q : parser_exception) :
    generic_handler q.upcast = q.what :=
  rfl

/-- C9: immutability: no public operation on an existing object (`what`,
`get_line`, `get_pos`, copy construction) changes the stored message, line, or
position of that object. -/
theorem C9_immutable_after_construction (e : exception) (q : parser_exception) :
    (∀ op, (e.run_op op).2 = e) ∧ ∀ op, (q.run_op op).2 = q :=
  ⟨fun op => by cases op <;> rfl, fun op => by cases op <;> rfl⟩

/-- C10: both error types are reachable through a `std::exception`-typed
reference (the base class derives from `std::exception` and both override
`what()`), so a generic handler catching by base reference catches either type
and receives its rendered description through the dispatched `what()`. -/
theorem C10_std_exception_dispatch (e : exception) (q : parser_exception) :
    std_exception_ref.what e.upcast = e.what
    ∧ std_exception_ref.what q.upcast = q.what :=
  ⟨rfl, rfl⟩
